import Mathlib

/-!
Verification of the DeepL translation plugin core (src/src/lib.rs) against its
natural-language specification.

Strings are embedded as `List Char`.  The Rust string operations used by the
plugin — `str::split(':')`, `str::split("->")`, `str::trim`,
`str::to_lowercase`, `format!` concatenation — are reproduced below as
executable list functions with the same observable behaviour on the inputs this
program handles (the language-code tokens and whitespace involved are ASCII).
The network, configuration store and logger are external collaborators: the
network is passed to `search` as a function argument and every issued call is
recorded in an explicit trace, so "no network call is made" is the statement
that the trace is empty.
-/

/-- Decidable equality for `Except`, so that concrete runs of the fallible
parsing phase can be checked by `decide`. -/
instance {e a : Type} [DecidableEq e] [DecidableEq a] : DecidableEq (Except e a)
  | .error x, .error y =>
    if h : x = y then isTrue (congrArg Except.error h)
    else isFalse (fun hc => h (Except.error.inj hc))
  | .error _, .ok _ => isFalse (fun hc => Except.noConfusion hc)
  | .ok _, .error _ => isFalse (fun hc => Except.noConfusion hc)
  | .ok x, .ok y =>
    if h : x = y then isTrue (congrArg Except.ok h)
    else isFalse (fun hc => h (Except.ok.inj hc))

/-- Embedding of Rust `str::trim`: drop leading and trailing whitespace
(lib.rs uses `trim()` at lines 65, 75, 96, 97, 128). -/
def trimChars (l : List Char) : List Char :=
  ((l.dropWhile Char.isWhitespace).reverse.dropWhile Char.isWhitespace).reverse

/-- Embedding of Rust `str::to_lowercase` as used on ASCII language-code
tokens (lib.rs lines 96, 97, 128). -/
def toLowerChars (l : List Char) : List Char :=
  l.map Char.toLower

/-- Embedding of Rust `str::split(sep)` for a single-character separator
(lib.rs line 63, `query.split(':')`): splitting always yields at least one
part, and yields empty parts between adjacent separators. -/
def splitOnChar (sep : Char) : List Char → List (List Char)
  | [] => [[]]
  | c :: rest =>
    if c = sep then
      [] :: splitOnChar sep rest
    else
      match splitOnChar sep rest with
      | [] => [[c]]
      | part :: parts => (c :: part) :: parts

/-- Embedding of Rust `str::split("->")` (lib.rs line 86): split on each
leftmost non-overlapping occurrence of the two-character arrow. -/
def splitOnArrow : List Char → List (List Char)
  | '-' :: '>' :: rest => [] :: splitOnArrow rest
  | c :: rest =>
    match splitOnArrow rest with
    | [] => [[c]]
    | part :: parts => (c :: part) :: parts
  | [] => [[]]

/-- Source-language enumeration (lib.rs lines 306–338). -/
inductive SourceLanguageCode where
  | AR | BG | CS | DA | DE | EL | EN | ES | ET | FI
  | FR | HU | ID | IT | JA | KO | LT | LV | NB | NL
  | PL | PT | RO | RU | SK | SL | SV | TR | UK | ZH
  deriving DecidableEq, Repr

/-- Target-language enumeration (lib.rs lines 446–486); unlike the source
side it carries the regional variants EnGb, EnUs, PtBr, PtPt. -/
inductive TargetLanguageCode where
  | AR | BG | CS | DA | DE | EL | EN | EnGb | EnUs | ES
  | ET | FI | FR | HU | ID | IT | JA | KO | LT | LV
  | NB | NL | PL | PT | PtBr | PtPt | RO | RU | SK | SL
  | SV | TR | UK | ZH
  deriving DecidableEq, Repr

/-- First-match lookup in an ordered token table: the embedding of a Rust
`match` over string literals, one row per arm, earlier rows taking priority
(the arms are disjoint here, so priority never matters). -/
def lookupTable {a : Type} : List (List Char × a) → List Char → Option a
  | [], _ => none
  | (tok, v) :: rest, s => if s = tok then some v else lookupTable rest s

/-- The token table of `SourceLanguageCode::guess_from_str` (lib.rs lines
341–407), one row per match arm, in source order. -/
def sourceTable : List (List Char × SourceLanguageCode) := [
  ("ar".data, SourceLanguageCode.AR),
  ("arabic".data, SourceLanguageCode.AR),
  ("bg".data, SourceLanguageCode.BG),
  ("bulgarian".data, SourceLanguageCode.BG),
  ("cs".data, SourceLanguageCode.CS),
  ("czech".data, SourceLanguageCode.CS),
  ("da".data, SourceLanguageCode.DA),
  ("danish".data, SourceLanguageCode.DA),
  ("de".data, SourceLanguageCode.DE),
  ("german".data, SourceLanguageCode.DE),
  ("el".data, SourceLanguageCode.EL),
  ("greek".data, SourceLanguageCode.EL),
  ("en".data, SourceLanguageCode.EN),
  ("english".data, SourceLanguageCode.EN),
  ("es".data, SourceLanguageCode.ES),
  ("spanish".data, SourceLanguageCode.ES),
  ("et".data, SourceLanguageCode.ET),
  ("estonian".data, SourceLanguageCode.ET),
  ("fi".data, SourceLanguageCode.FI),
  ("finnish".data, SourceLanguageCode.FI),
  ("fr".data, SourceLanguageCode.FR),
  ("french".data, SourceLanguageCode.FR),
  ("hu".data, SourceLanguageCode.HU),
  ("hungarian".data, SourceLanguageCode.HU),
  ("id".data, SourceLanguageCode.ID),
  ("indonesian".data, SourceLanguageCode.ID),
  ("it".data, SourceLanguageCode.IT),
  ("italian".data, SourceLanguageCode.IT),
  ("jp".data, SourceLanguageCode.JA),
  ("ja".data, SourceLanguageCode.JA),
  ("japanese".data, SourceLanguageCode.JA),
  ("ko".data, SourceLanguageCode.KO),
  ("korean".data, SourceLanguageCode.KO),
  ("lt".data, SourceLanguageCode.LT),
  ("lithuanian".data, SourceLanguageCode.LT),
  ("lv".data, SourceLanguageCode.LV),
  ("latvian".data, SourceLanguageCode.LV),
  ("nb".data, SourceLanguageCode.NB),
  ("norwegian".data, SourceLanguageCode.NB),
  ("nl".data, SourceLanguageCode.NL),
  ("dutch".data, SourceLanguageCode.NL),
  ("pl".data, SourceLanguageCode.PL),
  ("polish".data, SourceLanguageCode.PL),
  ("pt".data, SourceLanguageCode.PT),
  ("portuguese".data, SourceLanguageCode.PT),
  ("ro".data, SourceLanguageCode.RO),
  ("romanian".data, SourceLanguageCode.RO),
  ("ru".data, SourceLanguageCode.RU),
  ("russian".data, SourceLanguageCode.RU),
  ("sk".data, SourceLanguageCode.SK),
  ("slovak".data, SourceLanguageCode.SK),
  ("sl".data, SourceLanguageCode.SL),
  ("slovenian".data, SourceLanguageCode.SL),
  ("sv".data, SourceLanguageCode.SV),
  ("swedish".data, SourceLanguageCode.SV),
  ("tr".data, SourceLanguageCode.TR),
  ("turkish".data, SourceLanguageCode.TR),
  ("uk".data, SourceLanguageCode.UK),
  ("ukrainian".data, SourceLanguageCode.UK),
  ("zh".data, SourceLanguageCode.ZH),
  ("chinese".data, SourceLanguageCode.ZH)
]

/-- The token table of `TargetLanguageCode::guess_from_str` (lib.rs lines
489–559), one row per match arm, in source order: the source tokens plus the
region-qualified en-gb, en-us, pt-br, pt-pt. -/
def targetTable : List (List Char × TargetLanguageCode) := [
  ("ar".data, TargetLanguageCode.AR),
  ("arabic".data, TargetLanguageCode.AR),
  ("bg".data, TargetLanguageCode.BG),
  ("bulgarian".data, TargetLanguageCode.BG),
  ("cs".data, TargetLanguageCode.CS),
  ("czech".data, TargetLanguageCode.CS),
  ("da".data, TargetLanguageCode.DA),
  ("danish".data, TargetLanguageCode.DA),
  ("de".data, TargetLanguageCode.DE),
  ("german".data, TargetLanguageCode.DE),
  ("el".data, TargetLanguageCode.EL),
  ("greek".data, TargetLanguageCode.EL),
  ("en".data, TargetLanguageCode.EN),
  ("english".data, TargetLanguageCode.EN),
  ("en-gb".data, TargetLanguageCode.EnGb),
  ("en-us".data, TargetLanguageCode.EnUs),
  ("es".data, TargetLanguageCode.ES),
  ("spanish".data, TargetLanguageCode.ES),
  ("et".data, TargetLanguageCode.ET),
  ("estonian".data, TargetLanguageCode.ET),
  ("fi".data, TargetLanguageCode.FI),
  ("finnish".data, TargetLanguageCode.FI),
  ("fr".data, TargetLanguageCode.FR),
  ("french".data, TargetLanguageCode.FR),
  ("hu".data, TargetLanguageCode.HU),
  ("hungarian".data, TargetLanguageCode.HU),
  ("id".data, TargetLanguageCode.ID),
  ("indonesian".data, TargetLanguageCode.ID),
  ("it".data, TargetLanguageCode.IT),
  ("italian".data, TargetLanguageCode.IT),
  ("jp".data, TargetLanguageCode.JA),
  ("ja".data, TargetLanguageCode.JA),
  ("japanese".data, TargetLanguageCode.JA),
  ("ko".data, TargetLanguageCode.KO),
  ("korean".data, TargetLanguageCode.KO),
  ("lt".data, TargetLanguageCode.LT),
  ("lithuanian".data, TargetLanguageCode.LT),
  ("lv".data, TargetLanguageCode.LV),
  ("latvian".data, TargetLanguageCode.LV),
  ("nb".data, TargetLanguageCode.NB),
  ("norwegian".data, TargetLanguageCode.NB),
  ("nl".data, TargetLanguageCode.NL),
  ("dutch".data, TargetLanguageCode.NL),
  ("pl".data, TargetLanguageCode.PL),
  ("polish".data, TargetLanguageCode.PL),
  ("pt".data, TargetLanguageCode.PT),
  ("portuguese".data, TargetLanguageCode.PT),
  ("pt-br".data, TargetLanguageCode.PtBr),
  ("pt-pt".data, TargetLanguageCode.PtPt),
  ("ro".data, TargetLanguageCode.RO),
  ("romanian".data, TargetLanguageCode.RO),
  ("ru".data, TargetLanguageCode.RU),
  ("russian".data, TargetLanguageCode.RU),
  ("sk".data, TargetLanguageCode.SK),
  ("slovak".data, TargetLanguageCode.SK),
  ("sl".data, TargetLanguageCode.SL),
  ("slovenian".data, TargetLanguageCode.SL),
  ("sv".data, TargetLanguageCode.SV),
  ("swedish".data, TargetLanguageCode.SV),
  ("tr".data, TargetLanguageCode.TR),
  ("turkish".data, TargetLanguageCode.TR),
  ("uk".data, TargetLanguageCode.UK),
  ("ukrainian".data, TargetLanguageCode.UK),
  ("zh".data, TargetLanguageCode.ZH),
  ("chinese".data, TargetLanguageCode.ZH)
]

/-- Embedding of `SourceLanguageCode::guess_from_str` (lib.rs lines 341–407). -/
def SourceLanguageCode.guess_from_str (s : List Char) : Option SourceLanguageCode :=
  lookupTable sourceTable s

/-- Embedding of `TargetLanguageCode::guess_from_str` (lib.rs lines 489–559). -/
def TargetLanguageCode.guess_from_str (s : List Char) : Option TargetLanguageCode :=
  lookupTable targetTable s

/-- Embedding of `impl Display for SourceLanguageCode` (lib.rs lines 409–444):
what `format!` interpolation of a source code produces. -/
def SourceLanguageCode.display : SourceLanguageCode → List Char
  | .AR => "Arabic".data
  | .BG => "Bulgarian".data
  | .CS => "Czech".data
  | .DA => "Danish".data
  | .DE => "German".data
  | .EL => "Greek".data
  | .EN => "English".data
  | .ES => "Spanish".data
  | .ET => "Estonian".data
  | .FI => "Finnish".data
  | .FR => "French".data
  | .HU => "Hungarian".data
  | .ID => "Indonesian".data
  | .IT => "Italian".data
  | .JA => "Japanese".data
  | .KO => "Korean".data
  | .LT => "Lithuanian".data
  | .LV => "Latvian".data
  | .NB => "Norwegian (Bokmål)".data
  | .NL => "Dutch".data
  | .PL => "Polish".data
  | .PT => "Portuguese".data
  | .RO => "Romanian".data
  | .RU => "Russian".data
  | .SK => "Slovak".data
  | .SL => "Slovenian".data
  | .SV => "Swedish".data
  | .TR => "Turkish".data
  | .UK => "Ukrainian".data
  | .ZH => "Chinese".data

/-- Embedding of `impl Display for TargetLanguageCode` (lib.rs lines 561–599). -/
def TargetLanguageCode.display : TargetLanguageCode → List Char
  | .AR => "Arabic".data
  | .BG => "Bulgarian".data
  | .CS => "Czech".data
  | .DA => "Danish".data
  | .DE => "German".data
  | .EL => "Greek".data
  | .EN => "English".data
  | .EnGb => "English (British)".data
  | .EnUs => "English (American)".data
  | .ES => "Spanish".data
  | .ET => "Estonian".data
  | .FI => "Finnish".data
  | .FR => "French".data
  | .HU => "Hungarian".data
  | .ID => "Indonesian".data
  | .IT => "Italian".data
  | .JA => "Japanese".data
  | .KO => "Korean".data
  | .LT => "Lithuanian".data
  | .LV => "Latvian".data
  | .NB => "Norwegian (Bokmål)".data
  | .NL => "Dutch".data
  | .PL => "Polish".data
  | .PT => "Portuguese".data
  | .PtBr => "Portuguese (Brazilian)".data
  | .PtPt => "Portuguese (Other)".data
  | .RO => "Romanian".data
  | .RU => "Russian".data
  | .SK => "Slovak".data
  | .SL => "Slovenian".data
  | .SV => "Swedish".data
  | .TR => "Turkish".data
  | .UK => "Ukrainian".data
  | .ZH => "Chinese (simplified)".data

/-- Embedding of `struct TranslateRequest` (lib.rs lines 277–283). -/
structure TranslateRequest where
  text : List (List Char)
  target_lang : TargetLanguageCode
  source_lang : Option SourceLanguageCode
  deriving DecidableEq, Repr

/-- Embedding of `struct TranslatedText` (lib.rs lines 300–304): one decoded
translation item. -/
structure TranslatedText where
  detected_source_language : SourceLanguageCode
  text : List Char
  deriving DecidableEq, Repr

/-- Embedding of `struct TranslateResponse` (lib.rs lines 295–298). -/
structure TranslateResponse where
  translations : List TranslatedText
  deriving DecidableEq, Repr

/-- One presented result: `SearchResult::new(&translation.text)` supplies the
display text and `.set_extra_info(&clipboard_text)` the clipboard payload
(lib.rs line 218). -/
structure PresentedResult where
  display_text : List Char
  clipboard_text : List Char
  deriving DecidableEq, Repr

/-- The early-return exit points of the query-handling part of `search`
(lib.rs lines 62–154), one constructor per `return res.into()` site:
`noFirstPart` is the dead line-66 arm (an iterator's first `next()` is never
`None`); `noQueryBody` is the empty code spec check (line 69);
`emptyBody` is the empty rejoined-body check (line 77); the rest are the
arrow-count and lookup failures of the code-spec match (lines 88–153). -/
inductive ParseFailure where
  | noFirstPart
  | noQueryBody
  | emptyBody
  | tooManyArrows
  | invalidSourceCode
  | invalidTargetCode
  | noTargetCode
  deriving DecidableEq, Repr

/-- The query-parsing phase of `search` (lib.rs lines 62–154): split on the
first colon, trim both sides, rejoin the remainder with colons, then split the
code spec on arrows and resolve the language codes.  On success it returns the
trimmed body (the Rust local `rest`) together with the constructed
`TranslateRequest`. -/
def parseQuery (q : List Char) : Except ParseFailure (List Char × TranslateRequest) :=
  match splitOnChar ':' q with
  | [] => .error .noFirstPart
  | first :: restParts =>
    if trimChars first = [] then .error .noQueryBody
    else if trimChars (List.intercalate [':'] restParts) = [] then .error .emptyBody
    else
      match splitOnArrow (trimChars first) with
      | _ :: _ :: _ :: _ => .error .tooManyArrows
      | [source, target] =>
        match SourceLanguageCode.guess_from_str (toLowerChars (trimChars source)) with
        | none => .error .invalidSourceCode
        | some sourceCode =>
          match TargetLanguageCode.guess_from_str (toLowerChars (trimChars target)) with
          | none => .error .invalidTargetCode
          | some targetCode =>
            .ok (trimChars (List.intercalate [':'] restParts),
              { text := [trimChars (List.intercalate [':'] restParts)],
                target_lang := targetCode,
                source_lang := some sourceCode })
      | [target] =>
        match TargetLanguageCode.guess_from_str (toLowerChars (trimChars target)) with
        | none => .error .invalidTargetCode
        | some targetCode =>
          .ok (trimChars (List.intercalate [':'] restParts),
            { text := [trimChars (List.intercalate [':'] restParts)],
              target_lang := targetCode,
              source_lang := none })
      | [] => .error .noTargetCode

/-- Embedding of the loop body of `search` over `response.translations`
(lib.rs lines 198–218): build the optional query line and the translation
line, concatenate them into the clipboard payload. -/
def presentOne (req : TranslateRequest) (rest : List Char)
    (includeQuery includeCodes : Bool) (translation : TranslatedText) : PresentedResult :=
  { display_text := translation.text,
    clipboard_text :=
      (if includeQuery then
        if includeCodes then
          SourceLanguageCode.display (req.source_lang.getD translation.detected_source_language)
            ++ ": ".data ++ rest ++ "\n".data
        else rest ++ "\n".data
      else []) ++
      (if includeCodes then
        TargetLanguageCode.display req.target_lang ++ ": ".data ++ translation.text
      else translation.text) }

/-- The result-formatting phase of `search` (lib.rs lines 198–219): one
presented result per translated item, in response order. -/
def formatTranslations (req : TranslateRequest) (rest : List Char)
    (includeQuery includeCodes : Bool) (items : List TranslatedText) : List PresentedResult :=
  items.map (presentOne req rest includeQuery includeCodes)

/-- The two fixed endpoints selected by the free-tier toggle
(lib.rs lines 160–164). -/
def endpointUrl (useFreeTier : Bool) : List Char :=
  if useFreeTier then "https://api-free.deepl.com/v2/translate".data
  else "https://api.deepl.com/v2/translate".data

/-- The host-supplied configuration entries read by `search` (lib.rs lines 47,
156, 193, 196 and `default_config`, lines 257–265); `none` models a missing or
wrongly-typed entry, which each `.and_then(..).unwrap_or(..)` read turns into
the documented default. -/
structure Config where
  apiKey : Option (List Char)
  useFreeTier : Option Bool
  includeQueryInClipboard : Option Bool
  includeLanguageCodeInClipboard : Option Bool

/-- Embedding of `DeepL::search` (lib.rs lines 43–222).  The network is the
function argument `net` (endpoint URL and request body in, decoded response or
failure out; a `.error` covers both `send()` and JSON-decode failures, which
the code handles identically).  The second component of the result is the
trace of network calls issued, one entry per executed `.send()`. -/
def search (cfg : Config)
    (net : List Char → TranslateRequest → Except (List Char) TranslateResponse)
    (query : List Char) : List PresentedResult × List (List Char × TranslateRequest) :=
  if cfg.apiKey.getD [] = [] then ([], [])
  else
    match parseQuery query with
    | .error _ => ([], [])
    | .ok (rest, req) =>
      match net (endpointUrl (cfg.useFreeTier.getD true)) req with
      | .error _ => ([], [(endpointUrl (cfg.useFreeTier.getD true), req)])
      | .ok response =>
        (formatTranslations req rest
          (cfg.includeQueryInClipboard.getD false)
          (cfg.includeLanguageCodeInClipboard.getD false)
          response.translations,
         [(endpointUrl (cfg.useFreeTier.getD true), req)])

theorem splitOnChar_ne_nil (sep : Char) (l : List Char) : splitOnChar sep l ≠ [] := by
  cases l with
  | nil => simp [splitOnChar]
  | cons c rest =>
    simp only [splitOnChar]
    split
    · simp
    · split <;> simp

theorem splitOnArrow_ne_nil (l : List Char) : splitOnArrow l ≠ [] := by
  unfold splitOnArrow
  split
  · simp
  · split <;> simp
  · simp

theorem splitOnChar_eq_of_not_mem {sep : Char} {l : List Char} (h : sep ∉ l) :
    splitOnChar sep l = [l] := by
  induction l with
  | nil => rfl
  | cons c rest ih =>
    simp only [List.mem_cons, not_or] at h
    have hc : ¬ (c = sep) := fun hh => h.1 hh.symm
    simp [splitOnChar, hc, ih h.2]

theorem intercalate_colon_nil : List.intercalate [':'] ([] : List (List Char)) = [] := rfl

theorem trimChars_nil : trimChars [] = [] := rfl

/-- Any early-return from the query-parsing phase yields the empty result
list with no network call issued (lib.rs: every failure arm is
`return res.into()` with `res` still empty, before `.send()`). -/
theorem search_eq_empty_of_parse_error (cfg : Config)
    (net : List Char → TranslateRequest → Except (List Char) TranslateResponse)
    (q : List Char) (e : ParseFailure) (h : parseQuery q = .error e) :
    search cfg net q = ([], []) := by
  unfold search
  split
  · rfl
  · simp [h]

/-- C1 counterexample: for the §8 response formatted with
`include_query = true, include_codes = true`, the clipboard text is not
`"EN: Hello\nDE: Hallo"` — the code interpolates the `Display`
implementations, which produce full language names, not wire codes. -/
theorem c1_counterexample :
    (presentOne { text := ["Hello".data], target_lang := .DE, source_lang := none }
      "Hello".data true true
      { detected_source_language := .EN, text := "Hallo".data }).clipboard_text
      ≠ "EN: Hello\nDE: Hallo".data := by
  decide

/-- C1 (amended): with both toggles on, the clipboard text is the query line
and the translation line, each prefixed by the DISPLAY NAME of the language
(the request's explicit source if set, else the item's detected source, and
the request's target); for the §8 example this is
`"English: Hello\nGerman: Hallo"`. -/
theorem c1_clipboard_uses_display_names :
    (∀ (req : TranslateRequest) (rest : List Char) (t : TranslatedText),
      (presentOne req rest true true t).clipboard_text
        = (SourceLanguageCode.display (req.source_lang.getD t.detected_source_language)
            ++ ": ".data ++ rest ++ "\n".data)
          ++ (TargetLanguageCode.display req.target_lang ++ ": ".data ++ t.text)) ∧
    (presentOne { text := ["Hello".data], target_lang := .DE, source_lang := none }
      "Hello".data true true
      { detected_source_language := .EN, text := "Hallo".data }).clipboard_text
      = "English: Hello\nGerman: Hallo".data := by
  exact ⟨fun req rest t => rfl, by decide⟩

/-- C2 counterexample: the query `"en->de:"` has a code spec that splits into
exactly the two segments `en` and `de`, both of which resolve, yet parsing
builds no request at all — the empty-body guard fires first. -/
theorem c2_counterexample :
    splitOnChar ':' "en->de:".data = ["en->de".data, []] ∧
    splitOnArrow (trimChars "en->de".data) = ["en".data, "de".data] ∧
    SourceLanguageCode.guess_from_str (toLowerChars (trimChars "en".data)) = some .EN ∧
    TargetLanguageCode.guess_from_str (toLowerChars (trimChars "de".data)) = some .DE ∧
    parseQuery "en->de:".data = .error .emptyBody := by
  decide

/-- C2 (amended): PROVIDED the body (everything after the first colon,
rejoined with colons and trimmed) is non-empty, a code spec with no arrow
that resolves in the target table yields a request with `source_lang` unset
and `text = [body]`, and a code spec of exactly two arrow segments resolving
in the source and target tables yields a request with both codes set;
in particular `"de: Hello"` and `"en->de: Hello"` parse as documented. -/
theorem c2_parse_builds_request :
    (∀ (q first : List Char) (restParts : List (List Char)) (t : List Char)
        (tc : TargetLanguageCode),
      splitOnChar ':' q = first :: restParts →
      trimChars (List.intercalate [':'] restParts) ≠ [] →
      splitOnArrow (trimChars first) = [t] →
      TargetLanguageCode.guess_from_str (toLowerChars (trimChars t)) = some tc →
      parseQuery q = .ok (trimChars (List.intercalate [':'] restParts),
        { text := [trimChars (List.intercalate [':'] restParts)],
          target_lang := tc, source_lang := none })) ∧
    (∀ (q first : List Char) (restParts : List (List Char)) (s t : List Char)
        (sc : SourceLanguageCode) (tc : TargetLanguageCode),
      splitOnChar ':' q = first :: restParts →
      trimChars (List.intercalate [':'] restParts) ≠ [] →
      splitOnArrow (trimChars first) = [s, t] →
      SourceLanguageCode.guess_from_str (toLowerChars (trimChars s)) = some sc →
      TargetLanguageCode.guess_from_str (toLowerChars (trimChars t)) = some tc →
      parseQuery q = .ok (trimChars (List.intercalate [':'] restParts),
        { text := [trimChars (List.intercalate [':'] restParts)],
          target_lang := tc, source_lang := some sc })) ∧
    parseQuery "de: Hello".data =
      .ok ("Hello".data, { text := ["Hello".data], target_lang := .DE, source_lang := none }) ∧
    parseQuery "en->de: Hello".data =
      .ok ("Hello".data, { text := ["Hello".data], target_lang := .DE, source_lang := some .EN }) := by
  refine ⟨?_, ?_, by decide, by decide⟩
  · intro q first restParts t tc hs hb ha hg
    have h1 : trimChars first ≠ [] := by
      intro he
      rw [he] at ha
      simp [splitOnArrow] at ha
      subst ha
      exact Option.noConfusion
        ((show TargetLanguageCode.guess_from_str (toLowerChars (trimChars [])) = none from rfl).symm.trans hg)
    unfold parseQuery
    simp [hs, h1, hb, ha, hg]
  · intro q first restParts s t sc tc hs hb ha hgs hgt
    have h1 : trimChars first ≠ [] := by
      intro he
      rw [he] at ha
      simp [splitOnArrow] at ha
    unfold parseQuery
    simp [hs, h1, hb, ha, hgs, hgt]

/-- C2 witness: the two documented queries, through the amended theorem. -/
theorem c2_witness :
    parseQuery "de: Hello".data =
      .ok ("Hello".data, { text := ["Hello".data], target_lang := .DE, source_lang := none }) ∧
    parseQuery "en->de: Hello".data =
      .ok ("Hello".data, { text := ["Hello".data], target_lang := .DE, source_lang := some .EN }) :=
  ⟨c2_parse_builds_request.1 "de: Hello".data "de".data [" Hello".data] "de".data .DE
      (by decide) (by decide) (by decide) (by decide),
   c2_parse_builds_request.2.1 "en->de: Hello".data "en->de".data [" Hello".data]
      "en".data "de".data .EN .DE (by decide) (by decide) (by decide) (by decide) (by decide)⟩

/-- C3 counterexample: `"hello"` contains no colon, yet parsing fails at the
empty-body exit (the whole input becomes the code spec and the rejoined body
is empty), not with the `noQueryBody` reason the claim names. -/
theorem c3_counterexample :
    (':' ∉ "hello".data) ∧
    parseQuery "hello".data = .error .emptyBody ∧
    ParseFailure.emptyBody ≠ ParseFailure.noQueryBody := by
  decide

/-- C3 (amended): a query with no colon fails at the empty-body exit when it
is not all whitespace (else at the empty-code-spec exit `noQueryBody`); a
query whose part before the first colon trims to empty fails with
`noQueryBody`; in every parse-failure case no request is constructed, no
network call is issued and the caller receives the empty result sequence. -/
theorem c3_no_colon_or_empty_spec_fails :
    (∀ q : List Char, ':' ∉ q → trimChars q ≠ [] →
      parseQuery q = .error .emptyBody) ∧
    (∀ q : List Char, ':' ∉ q → trimChars q = [] →
      parseQuery q = .error .noQueryBody) ∧
    (∀ (q first : List Char) (restParts : List (List Char)),
      splitOnChar ':' q = first :: restParts → trimChars first = [] →
      parseQuery q = .error .noQueryBody) ∧
    (∀ (cfg : Config)
        (net : List Char → TranslateRequest → Except (List Char) TranslateResponse)
        (q : List Char) (e : ParseFailure),
      parseQuery q = .error e → search cfg net q = ([], [])) := by
  refine ⟨?_, ?_, ?_, fun cfg net q e h => search_eq_empty_of_parse_error cfg net q e h⟩
  · intro q hq hne
    unfold parseQuery
    simp [splitOnChar_eq_of_not_mem hq, hne, intercalate_colon_nil, trimChars_nil]
  · intro q hq he
    unfold parseQuery
    simp [splitOnChar_eq_of_not_mem hq, he]
  · intro q first restParts hs he
    unfold parseQuery
    simp [hs, he]

/-- C3 witness: concrete runs through each arm of the amended theorem. -/
theorem c3_witness :
    parseQuery "world".data = .error .emptyBody ∧
    parseQuery "  ".data = .error .noQueryBody ∧
    parseQuery ": x".data = .error .noQueryBody ∧
    search ⟨some "k".data, none, none, none⟩ (fun _ _ => .error []) "world".data = ([], []) :=
  ⟨c3_no_colon_or_empty_spec_fails.1 "world".data (by decide) (by decide),
   c3_no_colon_or_empty_spec_fails.2.1 "  ".data (by decide) (by decide),
   c3_no_colon_or_empty_spec_fails.2.2.1 ": x".data [] [" x".data] (by decide) (by decide),
   c3_no_colon_or_empty_spec_fails.2.2.2 ⟨some "k".data, none, none, none⟩
     (fun _ _ => .error []) "world".data .emptyBody (by decide)⟩

/-- C4: every request the parser ever constructs has a text sequence of
exactly one non-empty element; the empty-body query `"de:"` fails with
`emptyBody` before any request is built and the caller receives the empty
result sequence with no network call. -/
theorem c4_request_text_invariant :
    (∀ (q rest : List Char) (req : TranslateRequest),
      parseQuery q = .ok (rest, req) → req.text = [rest] ∧ rest ≠ []) ∧
    parseQuery "de:".data = .error .emptyBody ∧
    (∀ (cfg : Config)
        (net : List Char → TranslateRequest → Except (List Char) TranslateResponse),
      search cfg net "de:".data = ([], [])) := by
  refine ⟨?_, by decide,
    fun cfg net => search_eq_empty_of_parse_error cfg net "de:".data .emptyBody (by decide)⟩
  intro q rest req h
  unfold parseQuery at h
  rcases hs : splitOnChar ':' q with _ | ⟨first, restParts⟩
  · simp [hs] at h
  · simp only [hs] at h
    by_cases h1 : trimChars first = []
    · simp [h1] at h
    · by_cases h2 : trimChars (List.intercalate [':'] restParts) = []
      · simp [h1, h2] at h
      · simp only [h1, h2, if_neg, ite_false] at h
        rcases ha : splitOnArrow (trimChars first) with _ | ⟨a, _ | ⟨b, _ | ⟨c, ss⟩⟩⟩
        · exact absurd ha (splitOnArrow_ne_nil _)
        · rcases hg : TargetLanguageCode.guess_from_str (toLowerChars (trimChars a))
            with _ | tc
          · simp [h1, h2, ha, hg] at h
          · simp [h1, h2, ha, hg] at h
            obtain ⟨hrest, hreq⟩ := h
            subst hrest
            rw [← hreq]
            exact ⟨rfl, h2⟩
        · rcases hgs : SourceLanguageCode.guess_from_str (toLowerChars (trimChars a))
            with _ | sc
          · simp [h1, h2, ha, hgs] at h
          · rcases hgt : TargetLanguageCode.guess_from_str (toLowerChars (trimChars b))
              with _ | tc
            · simp [h1, h2, ha, hgs, hgt] at h
            · simp [h1, h2, ha, hgs, hgt] at h
              obtain ⟨hrest, hreq⟩ := h
              subst hrest
              rw [← hreq]
              exact ⟨rfl, h2⟩
        · simp [h1, h2, ha] at h

/-- C4 witness: the invariant evaluated on the parse of `"de: Hello"`. -/
theorem c4_witness :
    ({ text := ["Hello".data], target_lang := .DE, source_lang := none } : TranslateRequest).text
        = ["Hello".data] ∧ "Hello".data ≠ ([] : List Char) :=
  c4_request_text_invariant.1 "de: Hello".data "Hello".data
    { text := ["Hello".data], target_lang := .DE, source_lang := none } (by decide)

/-- C5 counterexample: `"a->b->c:"` has a code spec with two arrows, yet
parsing fails at the empty-body exit, not with `tooManyArrows` — the body
guard runs before the arrow split. -/
theorem c5_counterexample :
    splitOnArrow (trimChars "a->b->c".data) = ["a".data, "b".data, "c".data] ∧
    parseQuery "a->b->c:".data = .error .emptyBody ∧
    ParseFailure.emptyBody ≠ ParseFailure.tooManyArrows := by
  decide

/-- C5 (amended): PROVIDED the body (post-trim) is non-empty, any query whose
code spec splits on the arrow into more than two segments fails with
`tooManyArrows`; no request is built and, as for every parse failure, the
caller receives the empty result sequence with no network call. -/
theorem c5_too_many_arrows :
    (∀ (q first : List Char) (restParts : List (List Char)) (a b c : List Char)
        (ss : List (List Char)),
      splitOnChar ':' q = first :: restParts →
      trimChars (List.intercalate [':'] restParts) ≠ [] →
      splitOnArrow (trimChars first) = a :: b :: c :: ss →
      parseQuery q = .error .tooManyArrows) ∧
    parseQuery "a->b->c: Hello".data = .error .tooManyArrows ∧
    (∀ (cfg : Config)
        (net : List Char → TranslateRequest → Except (List Char) TranslateResponse)
        (q : List Char),
      parseQuery q = .error .tooManyArrows → search cfg net q = ([], [])) := by
  refine ⟨?_, by decide,
    fun cfg net q h => search_eq_empty_of_parse_error cfg net q .tooManyArrows h⟩
  intro q first restParts a b c ss hs hb ha
  have h1 : trimChars first ≠ [] := by
    intro he
    rw [he] at ha
    simp [splitOnArrow] at ha
  unfold parseQuery
  simp [hs, h1, hb, ha]

/-- C5 witness: a two-arrow query with a non-empty body, through the amended
theorem and its empty-result consequence. -/
theorem c5_witness :
    parseQuery "x->y->z: w".data = .error .tooManyArrows ∧
    search ⟨some "k".data, none, none, none⟩ (fun _ _ => .error [])
      "x->y->z: w".data = ([], []) :=
  ⟨c5_too_many_arrows.1 "x->y->z: w".data "x->y->z".data [" w".data]
      "x".data "y".data "z".data [] (by decide) (by decide) (by decide),
   c5_too_many_arrows.2.2 ⟨some "k".data, none, none, none⟩ (fun _ _ => .error [])
      "x->y->z: w".data
      (c5_too_many_arrows.1 "x->y->z: w".data "x->y->z".data [" w".data]
        "x".data "y".data "z".data [] (by decide) (by decide) (by decide))⟩

/-- C6: the target table resolves en / en-gb / en-us and pt / pt-br / pt-pt to
pairwise-distinct codes, and the unqualified tokens resolve to the legacy
unqualified variants. -/
theorem c6_regional_target_codes_distinct :
    TargetLanguageCode.guess_from_str "en".data = some .EN ∧
    TargetLanguageCode.guess_from_str "en-gb".data = some .EnGb ∧
    TargetLanguageCode.guess_from_str "en-us".data = some .EnUs ∧
    TargetLanguageCode.guess_from_str "pt".data = some .PT ∧
    TargetLanguageCode.guess_from_str "pt-br".data = some .PtBr ∧
    TargetLanguageCode.guess_from_str "pt-pt".data = some .PtPt ∧
    (TargetLanguageCode.EN ≠ .EnGb ∧ TargetLanguageCode.EN ≠ .EnUs ∧
      TargetLanguageCode.EnGb ≠ .EnUs) ∧
    (TargetLanguageCode.PT ≠ .PtBr ∧ TargetLanguageCode.PT ≠ .PtPt ∧
      TargetLanguageCode.PtBr ≠ .PtPt) := by
  decide

/-- C7: a missing or empty API key short-circuits `search` to the empty
result sequence with no network call, for every query and every network. -/
theorem c7_missing_api_key_short_circuits :
    ∀ (cfg : Config)
      (net : List Char → TranslateRequest → Except (List Char) TranslateResponse)
      (q : List Char),
      cfg.apiKey = none ∨ cfg.apiKey = some [] →
      search cfg net q = ([], []) := by
  intro cfg net q h
  unfold search
  rcases h with h | h <;> simp [h]

/-- C7 witness: the default (empty) configuration on a well-formed query. -/
theorem c7_witness :
    search ⟨none, none, none, none⟩ (fun _ _ => .error []) "de: Hello".data = ([], []) :=
  c7_missing_api_key_short_circuits ⟨none, none, none, none⟩ (fun _ _ => .error [])
    "de: Hello".data (Or.inl rfl)

/-- C8: the formatter yields exactly one presented result per translated
item, in response order, with the display text equal to the item's translated
text unmodified; with both clipboard toggles at their default `false` the
clipboard text is exactly the translated text; and `search` reads absent
toggle entries as `false`. -/
theorem c8_formatter_per_item_and_defaults :
    (∀ (req : TranslateRequest) (rest : List Char) (iq ic : Bool)
        (items : List TranslatedText),
      (formatTranslations req rest iq ic items).map PresentedResult.display_text
        = items.map TranslatedText.text) ∧
    (∀ (req : TranslateRequest) (rest : List Char) (items : List TranslatedText),
      formatTranslations req rest false false items
        = items.map (fun t => { display_text := t.text, clipboard_text := t.text })) ∧
    (∀ (key : List Char)
        (net : List Char → TranslateRequest → Except (List Char) TranslateResponse)
        (q rest : List Char) (req : TranslateRequest) (resp : TranslateResponse),
      key ≠ [] →
      parseQuery q = .ok (rest, req) →
      net (endpointUrl true) req = .ok resp →
      search ⟨some key, none, none, none⟩ net q
        = (formatTranslations req rest false false resp.translations,
           [(endpointUrl true, req)])) ∧
    formatTranslations { text := ["Hello".data], target_lang := .DE, source_lang := none }
        "Hello".data false false [{ detected_source_language := .EN, text := "Hallo".data }]
      = [{ display_text := "Hallo".data, clipboard_text := "Hallo".data }] := by
  refine ⟨?_, fun req rest items => rfl, ?_, by decide⟩
  · intro req rest iq ic items
    simp only [formatTranslations, List.map_map]
    rfl
  · intro key net q rest req resp hkey hq hnet
    unfold search
    simp [hkey, hq, hnet]

/-- C8 witness: a concrete run of `search` with a key set and no toggle
entries, hitting the default-false formatting path. -/
theorem c8_witness :
    search ⟨some "k".data, none, none, none⟩
      (fun _ _ => .ok { translations := [{ detected_source_language := .EN, text := "Hallo".data }] })
      "de: Hello".data
      = (formatTranslations { text := ["Hello".data], target_lang := .DE, source_lang := none }
           "Hello".data false false [{ detected_source_language := .EN, text := "Hallo".data }],
         [(endpointUrl true, { text := ["Hello".data], target_lang := .DE, source_lang := none })]) :=
  c8_formatter_per_item_and_defaults.2.2.1 "k".data
    (fun _ _ => .ok { translations := [{ detected_source_language := .EN, text := "Hallo".data }] })
    "de: Hello".data "Hello".data
    { text := ["Hello".data], target_lang := .DE, source_lang := none }
    { translations := [{ detected_source_language := .EN, text := "Hallo".data }] }
    (by decide) (by decide) rfl

/-- C9: splitting any code spec on the arrow yields at least one segment, so
the defensive zero-segment arm of the code-spec match — the one that would
fail with `noTargetCode` — is unreachable: no parse of any query ever
returns that failure. -/
theorem c9_no_target_code_branch_unreachable :
    (∀ l : List Char, splitOnArrow l ≠ []) ∧
    (∀ q : List Char, parseQuery q ≠ .error .noTargetCode) := by
  refine ⟨splitOnArrow_ne_nil, ?_⟩
  intro q h
  unfold parseQuery at h
  rcases hs : splitOnChar ':' q with _ | ⟨first, restParts⟩
  · simp [hs] at h
  · simp only [hs] at h
    by_cases h1 : trimChars first = []
    · simp [h1] at h
    · by_cases h2 : trimChars (List.intercalate [':'] restParts) = []
      · simp [h1, h2] at h
      · rcases ha : splitOnArrow (trimChars first) with _ | ⟨a, _ | ⟨b, _ | ⟨c, ss⟩⟩⟩
        · exact absurd ha (splitOnArrow_ne_nil _)
        · rcases hg : TargetLanguageCode.guess_from_str (toLowerChars (trimChars a))
            with _ | tc
          · simp [h1, h2, ha, hg] at h
          · simp [h1, h2, ha, hg] at h
        · rcases hgs : SourceLanguageCode.guess_from_str (toLowerChars (trimChars a))
            with _ | sc
          · simp [h1, h2, ha, hgs] at h
          · rcases hgt : TargetLanguageCode.guess_from_str (toLowerChars (trimChars b))
              with _ | tc
            · simp [h1, h2, ha, hgs, hgt] at h
            · simp [h1, h2, ha, hgs, hgt] at h
        · simp [h1, h2, ha] at h

/-- C9 witness: the two components at concrete inputs. -/
theorem c9_witness :
    splitOnArrow "x".data ≠ [] ∧
    parseQuery "de: hi".data ≠ .error .noTargetCode :=
  ⟨c9_no_target_code_branch_unreachable.1 "x".data,
   c9_no_target_code_branch_unreachable.2 "de: hi".data⟩

theorem lookupTable_mem_of_some {a : Type} {t : List (List Char × a)}
    {s : List Char} {c : a} (h : lookupTable t s = some c) : s ∈ t.map Prod.fst := by
  induction t with
  | nil => exact Option.noConfusion h
  | cons p rest ih =>
    obtain ⟨tok, v⟩ := p
    unfold lookupTable at h
    by_cases hp : s = tok
    · subst hp
      exact List.mem_map_of_mem Prod.fst (List.mem_cons_self _ _)
    · rw [if_neg hp] at h
      exact List.mem_cons_of_mem _ (ih h)

theorem lookupTable_isSome_of_mem {a : Type} {t : List (List Char × a)}
    {s : List Char} (h : s ∈ t.map Prod.fst) : ∃ v, lookupTable t s = some v := by
  induction t with
  | nil => exact absurd h (List.not_mem_nil _)
  | cons p rest ih =>
    obtain ⟨tok, v⟩ := p
    by_cases hp : s = tok
    · refine ⟨v, ?_⟩
      unfold lookupTable
      rw [if_pos hp]
    · rw [List.map_cons] at h
      rcases List.mem_cons.mp h with h | h
      · exact absurd h hp
      · obtain ⟨w, hw⟩ := ih h
        refine ⟨w, ?_⟩
        unfold lookupTable
        rw [if_neg hp]
        exact hw

/-- C10: every token the source table accepts is accepted by the target table
as well, and the extension is strict — the region-qualified token en-gb
resolves only on the target side. -/
theorem c10_source_tokens_subset_of_target :
    (∀ (s : List Char) (c : SourceLanguageCode),
      SourceLanguageCode.guess_from_str s = some c →
      ∃ c2, TargetLanguageCode.guess_from_str s = some c2) ∧
    SourceLanguageCode.guess_from_str "en-gb".data = none ∧
    TargetLanguageCode.guess_from_str "en-gb".data = some .EnGb := by
  refine ⟨?_, by decide, by decide⟩
  intro s c h
  have hmem : s ∈ sourceTable.map Prod.fst := lookupTable_mem_of_some h
  have hsub : ∀ x ∈ sourceTable.map Prod.fst, x ∈ targetTable.map Prod.fst := by decide
  exact lookupTable_isSome_of_mem (hsub s hmem)

/-- C10 witness: the subset property applied at the token de. -/
theorem c10_witness : ∃ c2, TargetLanguageCode.guess_from_str "de".data = some c2 :=
  c10_source_tokens_subset_of_target.1 "de".data .DE (by decide)
